import Mathlib

/-!
Shallow embedding of `modules/planning/lattice/trajectory_generation/trajectory_evaluator.cc`
(Apollo lattice planner trajectory evaluator).

Modelling conventions:
* C++ `double` arithmetic is embedded as exact rational arithmetic (`ℚ`).
* `Curve1d` (an external capability) is a value `eval : ℕ → ℚ → ℚ` (derivative
  order, parameter) together with its domain length `paramLength`, mirroring
  `Curve1d::Evaluate(order, param)` and `Curve1d::ParamLength()`.
* `std::exp` is passed in explicitly as a function `expFn : ℚ → ℚ`.
* The gflags configuration values (`FLAGS_...`) are gathered in `FlagsConfig`.
* `PathTimeGraph::GetPathBlockingIntervals` is external; its result (one list of
  `(s_lower, s_upper)` intervals per discretized time slice) is passed to the
  constructor directly.
* The external feasibility predicate
  `ConstraintChecker1d::IsValidLongitudinalTrajectory` is passed in as a
  boolean predicate on curves.
* C++ loops `for (double t = 0.0; t < L; t += dt)` with exact arithmetic and
  `dt > 0` visit exactly the times `i * dt` for `i < ⌈L / dt⌉`; `sampleTimes`
  captures this.
* `CHECK(...)` failures (fatal aborts) and out-of-contract reads of an empty
  priority queue (undefined behaviour in C++) are modelled as the two
  distinguishable outcomes `EvalErr.assertFail` and `EvalErr.emptyQueueRead`
  of an `Except` result.
-/

/-- A 1-d parametric curve capability: `eval n t` is the `n`-th derivative at
parameter `t`; `paramLength` is the length of its parameter domain. -/
structure Curve1d where
  eval : ℕ → ℚ → ℚ
  paramLength : ℚ

/-- The initial longitudinal state `init_s`: `s = init_s[0]` (position),
`ds = init_s[1]` (speed), `dds = init_s[2]` (acceleration). -/
structure InitState where
  s : ℚ
  ds : ℚ
  dds : ℚ

/-- `PlanningTarget`: cruise speed plus optional stop point position
(`has_stop_point` / `stop_point().s()` modelled as an `Option`). -/
structure PlanningTarget where
  cruise_speed : ℚ
  stop_point : Option ℚ

/-- The gflags configuration parameters read by the evaluator. -/
structure FlagsConfig where
  trajectory_time_length : ℚ
  trajectory_time_resolution : ℚ
  trajectory_space_resolution : ℚ
  decision_horizon : ℚ
  weight_lon_travel : ℚ
  weight_lon_jerk : ℚ
  weight_lon_collision : ℚ
  weight_lat_offset : ℚ
  weight_lat_comfort : ℚ
  weight_target_speed : ℚ
  weight_dist_travelled : ℚ
  weight_same_side_offset : ℚ
  weight_opposite_side_offset : ℚ
  lat_offset_bound : ℚ
  longitudinal_jerk_upper_bound : ℚ
  lon_collision_cost_std : ℚ
  lon_collision_yield_buffer : ℚ
  lon_collision_overtake_buffer : ℚ
  longitudinal_acceleration_lower_bound : ℚ
  comfort_acceleration_factor : ℚ
  lattice_epsilon : ℚ
  enable_auto_tuning : Bool

/-- The times visited by `for (double t = 0.0; t < length; t += resolution)`
under exact arithmetic with `resolution > 0`: `i * resolution` for
`i < ⌈length / resolution⌉`. -/
def sampleTimes (length resolution : ℚ) : List ℚ :=
  (List.range ⌈length / resolution⌉₊).map (fun i => (i : ℚ) * resolution)

/-- `dist_s` in `LonObjectiveCost`: the candidate's displacement over its own
parameter domain, `Evaluate(0, ParamLength()) - Evaluate(0, 0.0)`. -/
def distTravelled (lon : Curve1d) : ℚ :=
  lon.eval 0 lon.paramLength - lon.eval 0 0

/-- `dist_travelled_cost` in `LonObjectiveCost`: `1.0 / (1.0 + dist_s)`. -/
def distTravelledCost (lon : Curve1d) : ℚ :=
  1 / (1 + distTravelled lon)

/-- The speed-tracking accumulation loop of `LonObjectiveCost`: over the
reference speeds with index `i` and `t = i * trajectory_time_resolution`,
accumulate `t * t * |ref - Evaluate(1, t)|` and `t * t`. -/
def speedCostSums (cfg : FlagsConfig) (lon : Curve1d) :
    ℕ → List ℚ → ℚ × ℚ → ℚ × ℚ
  | _, [], acc => acc
  | i, r :: rest, acc =>
    let t : ℚ := (i : ℚ) * cfg.trajectory_time_resolution
    let diff := r - lon.eval 1 t
    speedCostSums cfg lon (i + 1) rest (acc.1 + t * t * |diff|, acc.2 + t * t)

/-- `TrajectoryEvaluator::LonObjectiveCost`. -/
def LonObjectiveCost (cfg : FlagsConfig) (lon : Curve1d)
    (planning_target : PlanningTarget) (ref_s_dots : List ℚ) : ℚ :=
  let sums := speedCostSums cfg lon 0 ref_s_dots (0, 0)
  let speed_cost := sums.1 / (sums.2 + cfg.lattice_epsilon)
  (speed_cost * cfg.weight_target_speed +
      distTravelledCost lon * cfg.weight_dist_travelled) /
    (cfg.weight_target_speed + cfg.weight_dist_travelled)

/-- `TrajectoryEvaluator::LonComfortCost`: normalized-jerk
sum-of-squares over (sum-of-absolutes + epsilon). -/
def LonComfortCost (cfg : FlagsConfig) (lon : Curve1d) : ℚ :=
  let sums :=
    (sampleTimes cfg.trajectory_time_length cfg.trajectory_time_resolution).foldl
      (fun (acc : ℚ × ℚ) t =>
        let jerk := lon.eval 3 t
        let cost := jerk / cfg.longitudinal_jerk_upper_bound
        (acc.1 + cost * cost, acc.2 + |cost|)) (0, 0)
  sums.1 / (sums.2 + cfg.lattice_epsilon)

/-- The indexed loop of `TrajectoryEvaluator::LonCollisionCost`: slice `i`
with a nonempty interval set contributes, for each interval `m`, the Gaussian
potential of the clearance beyond the yield/overtake buffers; empty slices are
skipped (but still advance the slice index). -/
def lonCollisionSums (cfg : FlagsConfig) (expFn : ℚ → ℚ) (lon : Curve1d) :
    ℕ → List (List (ℚ × ℚ)) → ℚ × ℚ → ℚ × ℚ
  | _, [], acc => acc
  | i, pt_interval :: rest, acc =>
    if pt_interval.isEmpty then
      lonCollisionSums cfg expFn lon (i + 1) rest acc
    else
      let t : ℚ := (i : ℚ) * cfg.trajectory_time_resolution
      let traj_s := lon.eval 0 t
      let sigma := cfg.lon_collision_cost_std
      let acc2 := pt_interval.foldl
        (fun (a : ℚ × ℚ) m =>
          let dist : ℚ :=
            if traj_s < m.1 - cfg.lon_collision_yield_buffer then
              m.1 - cfg.lon_collision_yield_buffer - traj_s
            else if traj_s > m.2 + cfg.lon_collision_overtake_buffer then
              traj_s - m.2 - cfg.lon_collision_overtake_buffer
            else 0
          let cost := expFn (-(dist * dist) / (2 * sigma * sigma))
          (a.1 + cost * cost, a.2 + cost)) acc
      lonCollisionSums cfg expFn lon (i + 1) rest acc2

/-- `TrajectoryEvaluator::LonCollisionCost`. -/
def LonCollisionCost (cfg : FlagsConfig) (expFn : ℚ → ℚ)
    (path_time_intervals : List (List (ℚ × ℚ))) (lon : Curve1d) : ℚ :=
  let sums := lonCollisionSums cfg expFn lon 0 path_time_intervals (0, 0)
  sums.1 / (sums.2 + cfg.lattice_epsilon)

/-- `TrajectoryEvaluator::LatOffsetCost`: samples weighted by the
opposite-side weight exactly when `lat_offset * lat_offset_start < 0.0`. -/
def LatOffsetCost (cfg : FlagsConfig) (lat : Curve1d) (s_values : List ℚ) : ℚ :=
  let lat_offset_start := lat.eval 0 0
  let sums := s_values.foldl
    (fun (acc : ℚ × ℚ) s =>
      let lat_offset := lat.eval 0 s
      let cost := lat_offset / cfg.lat_offset_bound
      if lat_offset * lat_offset_start < 0 then
        (acc.1 + cost * cost * cfg.weight_opposite_side_offset,
         acc.2 + |cost| * cfg.weight_opposite_side_offset)
      else
        (acc.1 + cost * cost * cfg.weight_same_side_offset,
         acc.2 + |cost| * cfg.weight_same_side_offset)) (0, 0)
  sums.1 / (sums.2 + cfg.lattice_epsilon)

/-- Comparison definition for the analysis of `LatOffsetCost`: the same
accumulation but with every sample weighted by the same-side weight,
regardless of sign. -/
def LatOffsetCostSameSideOnly (cfg : FlagsConfig) (lat : Curve1d)
    (s_values : List ℚ) : ℚ :=
  let sums := s_values.foldl
    (fun (acc : ℚ × ℚ) s =>
      let lat_offset := lat.eval 0 s
      let cost := lat_offset / cfg.lat_offset_bound
      (acc.1 + cost * cost * cfg.weight_same_side_offset,
       acc.2 + |cost| * cfg.weight_same_side_offset)) (0, 0)
  sums.1 / (sums.2 + cfg.lattice_epsilon)

/-- `TrajectoryEvaluator::LatComfortCost`: maximum over time samples of
`|l'' * s_dot^2 + l' * s_dotdot|` with the lateral curve evaluated at the
longitudinal position `s`. -/
def LatComfortCost (cfg : FlagsConfig) (lon lat : Curve1d) : ℚ :=
  (sampleTimes cfg.trajectory_time_length cfg.trajectory_time_resolution).foldl
    (fun max_cost t =>
      let s := lon.eval 0 t
      let s_dot := lon.eval 1 t
      let s_dotdot := lon.eval 2 t
      let l_prime := lat.eval 1 s
      let l_primeprime := lat.eval 2 s
      max max_cost |l_primeprime * s_dot * s_dot + l_prime * s_dotdot|) 0

/-- Modelled from the spec: `ConstantAccelerationTrajectory1d` (from
`modules/planning/lattice/trajectory1d/`, not under `src/`). Per the spec's
Guide Velocity Synthesizer section it is a piecewise-constant-acceleration
profile: constructed from a start position and start speed, extended by
`AppendSegment(acceleration, duration)`, with `ParamLength()` the total
duration and `Evaluate(1, t)` the speed at time `t`. -/
structure ConstAccProfile where
  start_s : ℚ
  start_v : ℚ
  segments : List (ℚ × ℚ)

/-- `AppendSegment(a, t)`: append a constant-acceleration segment. -/
def ConstAccProfile.appendSegment (p : ConstAccProfile) (a t : ℚ) :
    ConstAccProfile :=
  { p with segments := p.segments ++ [(a, t)] }

/-- `ParamLength()`: total duration of the profile. -/
def ConstAccProfile.paramLength (p : ConstAccProfile) : ℚ :=
  (p.segments.map Prod.snd).sum

/-- Modelled from the spec: speed of a piecewise-constant-acceleration profile
with initial speed `v` at time `t` — walk the `(acceleration, duration)`
segments, integrating acceleration over elapsed time. -/
def evalSpeedAux : ℚ → List (ℚ × ℚ) → ℚ → ℚ
  | v, [], _ => v
  | v, (a, d) :: rest, t =>
    if t ≤ d then v + a * t else evalSpeedAux (v + a * d) rest (t - d)

/-- `Evaluate(1, t)` on the profile: the speed at time `t`. -/
def ConstAccProfile.evalSpeed (p : ConstAccProfile) (t : ℚ) : ℚ :=
  evalSpeedAux p.start_v p.segments t

/-- The profile `lon_traj` built by
`TrajectoryEvaluator::ComputeLongitudinalGuideVelocity` before sampling.
Note the profile's initial speed is `cruise_s_dot = cruise_speed()`. -/
def guideProfile (cfg : FlagsConfig) (init_s : InitState)
    (planning_target : PlanningTarget) : ConstAccProfile :=
  let comfort_a :=
    cfg.longitudinal_acceleration_lower_bound * cfg.comfort_acceleration_factor
  let cruise_s_dot := planning_target.cruise_speed
  let base : ConstAccProfile := ⟨init_s.s, cruise_s_dot, []⟩
  match planning_target.stop_point with
  | none => base.appendSegment 0 cfg.trajectory_time_length
  | some stop_s =>
    let dist := stop_s - init_s.s
    let stop_a : ℚ :=
      if dist > cfg.lattice_epsilon then
        -cruise_s_dot * cruise_s_dot * (1 / 2) / dist
      else cfg.longitudinal_acceleration_lower_bound
    let lon_traj :=
      if stop_a > comfort_a then
        let stop_t := cruise_s_dot / (-comfort_a)
        let stop_dist := cruise_s_dot * stop_t * (1 / 2)
        let cruise_t := (dist - stop_dist) / cruise_s_dot
        (base.appendSegment 0 cruise_t).appendSegment comfort_a stop_t
      else
        let stop_t := cruise_s_dot / (-stop_a)
        base.appendSegment stop_a stop_t
    if lon_traj.paramLength < cfg.trajectory_time_length then
      lon_traj.appendSegment 0
        (cfg.trajectory_time_length - lon_traj.paramLength)
    else lon_traj

/-- `TrajectoryEvaluator::ComputeLongitudinalGuideVelocity`: sample the
profile's speed at the discretized time steps. -/
def ComputeLongitudinalGuideVelocity (cfg : FlagsConfig) (init_s : InitState)
    (planning_target : PlanningTarget) : List ℚ :=
  (sampleTimes cfg.trajectory_time_length cfg.trajectory_time_resolution).map
    (fun t => (guideProfile cfg init_s planning_target).evalSpeed t)

/-- The `s_values` built in `TrajectoryEvaluator::Evaluate`: spatial samples up
to `min(decision_horizon, Evaluate(0, ParamLength()))`. -/
def sValues (cfg : FlagsConfig) (lon : Curve1d) : List ℚ :=
  sampleTimes (min cfg.decision_horizon (lon.eval 0 lon.paramLength))
    cfg.trajectory_space_resolution

/-- `TrajectoryEvaluator::Evaluate`: returns the weighted total cost together
with the component vector `cost_components` (the four pushed components; the
C++ code only materializes the vector when a non-null out-parameter is given,
which does not change either value). -/
def Evaluate (cfg : FlagsConfig) (expFn : ℚ → ℚ)
    (path_time_intervals : List (List (ℚ × ℚ))) (init_s : InitState)
    (planning_target : PlanningTarget) (lon lat : Curve1d) : ℚ × List ℚ :=
  let reference_s_dot := ComputeLongitudinalGuideVelocity cfg init_s planning_target
  let lon_objective_cost := LonObjectiveCost cfg lon planning_target reference_s_dot
  let lon_jerk_cost := LonComfortCost cfg lon
  let lon_collision_cost := LonCollisionCost cfg expFn path_time_intervals lon
  let lat_offset_cost := LatOffsetCost cfg lat (sValues cfg lon)
  let lat_comfort_cost := LatComfortCost cfg lon lat
  (lon_objective_cost * cfg.weight_lon_travel +
      lon_jerk_cost * cfg.weight_lon_jerk +
      lon_collision_cost * cfg.weight_lon_collision +
      lat_offset_cost * cfg.weight_lat_offset +
      lat_comfort_cost * cfg.weight_lat_comfort,
   [lon_objective_cost, lon_jerk_cost, lon_collision_cost, lat_offset_cost])

/-- An entry of `cost_queue_`: a trajectory pair with its total cost. -/
abbrev PairCost := (Curve1d × Curve1d) × ℚ

/-- An entry of `cost_queue_with_components_`: a trajectory pair with its
`(cost_components, cost)` record. -/
abbrev PairCostWithComponents := (Curve1d × Curve1d) × (List ℚ × ℚ)

/-- Modelled from the spec: the priority queue's ordering comparator lives in
`trajectory_evaluator.h`, which is not under `src/`. Per the spec the Ranked
Pair Store is ordered ascending by total cost (lowest cost retrieved first),
so the queue is modelled as a list kept sorted ascending by the `key`
projection: `push` is ordered insertion, `top` the head, `pop` the tail. -/
def insertBy {α : Type} (key : α → ℚ) (x : α) : List α → List α
  | [] => [x]
  | y :: ys => if key x ≤ key y then x :: y :: ys else y :: insertBy key x ys

/-- The filter condition of the constructor: with a stop point, reject a
longitudinal candidate whose end-of-horizon position
`Evaluate(0, trajectory_time_length)` strictly exceeds the stop position
(without a stop point, `stop_point` is `+max` and nothing is rejected). -/
def lonOvershootsStop (cfg : FlagsConfig) (planning_target : PlanningTarget)
    (lon : Curve1d) : Bool :=
  match planning_target.stop_point with
  | some sp => decide (lon.eval 0 cfg.trajectory_time_length > sp)
  | none => false

/-- The constructor's nested loop: for each longitudinal candidate, skip it if
it overshoots the stop point or fails the external feasibility predicate, and
otherwise push one entry per lateral candidate into the queue. Parameterized
by the entry builder `mk` and cost projection `key` so it serves both the
plain queue and the with-components queue. -/
def pushAdmissiblePairs {α : Type} (cfg : FlagsConfig)
    (planning_target : PlanningTarget) (isValidLon : Curve1d → Bool)
    (lon_trajectories lat_trajectories : List Curve1d)
    (mk : Curve1d → Curve1d → α) (key : α → ℚ) : List α :=
  lon_trajectories.foldl
    (fun queue lon =>
      if lonOvershootsStop cfg planning_target lon then queue
      else if isValidLon lon = false then queue
      else
        lat_trajectories.foldl
          (fun q lat => insertBy key (mk lon lat) q) queue)
    []

/-- The state of a `TrajectoryEvaluator` after construction: the captured
`FLAGS_enable_auto_tuning` value, the blocking-interval table, `init_s_`, and
the two cost queues (only the one selected by the flag is populated). -/
structure TrajectoryEvaluator where
  enable_auto_tuning : Bool
  path_time_intervals : List (List (ℚ × ℚ))
  init_s : InitState
  cost_queue : List PairCost
  cost_queue_with_components : List PairCostWithComponents

/-- The `TrajectoryEvaluator` constructor. The C++ code tests
`FLAGS_enable_auto_tuning` inside the pair loop; the flag is constant, so the
test is hoisted here: exactly one of the two queues is populated. -/
def mkTrajectoryEvaluator (cfg : FlagsConfig) (expFn : ℚ → ℚ)
    (init_s : InitState) (planning_target : PlanningTarget)
    (lon_trajectories lat_trajectories : List Curve1d)
    (isValidLon : Curve1d → Bool)
    (blocking_intervals : List (List (ℚ × ℚ))) : TrajectoryEvaluator :=
  if cfg.enable_auto_tuning then
    { enable_auto_tuning := true
      path_time_intervals := blocking_intervals
      init_s := init_s
      cost_queue := []
      cost_queue_with_components :=
        pushAdmissiblePairs cfg planning_target isValidLon
          lon_trajectories lat_trajectories
          (fun lon lat =>
            let full := Evaluate cfg expFn blocking_intervals init_s
              planning_target lon lat
            ((lon, lat), (full.2, full.1)))
          (fun pc => pc.2.2) }
  else
    { enable_auto_tuning := false
      path_time_intervals := blocking_intervals
      init_s := init_s
      cost_queue :=
        pushAdmissiblePairs cfg planning_target isValidLon
          lon_trajectories lat_trajectories
          (fun lon lat =>
            ((lon, lat),
             (Evaluate cfg expFn blocking_intervals init_s planning_target
               lon lat).1))
          (fun pc => pc.2)
      cost_queue_with_components := [] }

/-- `TrajectoryEvaluator::has_more_trajectory_pairs`. -/
def TrajectoryEvaluator.has_more_trajectory_pairs
    (ev : TrajectoryEvaluator) : Bool :=
  if ev.enable_auto_tuning then !ev.cost_queue_with_components.isEmpty
  else !ev.cost_queue.isEmpty

/-- `TrajectoryEvaluator::num_of_trajectory_pairs`. -/
def TrajectoryEvaluator.num_of_trajectory_pairs
    (ev : TrajectoryEvaluator) : ℕ :=
  if ev.enable_auto_tuning then ev.cost_queue_with_components.length
  else ev.cost_queue.length

/-- The two abnormal outcomes of the post-construction accessors: a failed
`CHECK` (fatal assertion) and a `top()` read of an empty priority queue
(undefined behaviour in C++). -/
inductive EvalErr
  | assertFail
  | emptyQueueRead
deriving DecidableEq

/-- `TrajectoryEvaluator::next_top_trajectory_pair`: first
`CHECK(has_more_trajectory_pairs() == true)`, then pop and return the top of
the queue selected by the flag. -/
def TrajectoryEvaluator.next_top_trajectory_pair (ev : TrajectoryEvaluator) :
    Except EvalErr ((Curve1d × Curve1d) × TrajectoryEvaluator) :=
  if ev.has_more_trajectory_pairs then
    if ev.enable_auto_tuning then
      match ev.cost_queue_with_components with
      | [] => .error .emptyQueueRead
      | top :: rest =>
        .ok (top.1, { ev with cost_queue_with_components := rest })
    else
      match ev.cost_queue with
      | [] => .error .emptyQueueRead
      | top :: rest => .ok (top.1, { ev with cost_queue := rest })
  else .error .assertFail

/-- `TrajectoryEvaluator::top_trajectory_pair_cost`: reads the top of the
selected queue with no precondition check of any kind. -/
def TrajectoryEvaluator.top_trajectory_pair_cost (ev : TrajectoryEvaluator) :
    Except EvalErr ℚ :=
  if ev.enable_auto_tuning then
    match ev.cost_queue_with_components with
    | [] => .error .emptyQueueRead
    | top :: _ => .ok top.2.2
  else
    match ev.cost_queue with
    | [] => .error .emptyQueueRead
    | top :: _ => .ok top.2

/-- `TrajectoryEvaluator::top_trajectory_pair_component_cost`: first
`CHECK(FLAGS_enable_auto_tuning)`, then reads the top of the
with-components queue. -/
def TrajectoryEvaluator.top_trajectory_pair_component_cost
    (ev : TrajectoryEvaluator) : Except EvalErr (List ℚ) :=
  if ev.enable_auto_tuning then
    match ev.cost_queue_with_components with
    | [] => .error .emptyQueueRead
    | top :: _ => .ok top.2.1
  else .error .assertFail

/-- The state after `n` successful calls to `next_top_trajectory_pair`
(a failing call leaves the state unchanged). -/
def popN : ℕ → TrajectoryEvaluator → TrajectoryEvaluator
  | 0, ev => ev
  | n + 1, ev =>
    match ev.next_top_trajectory_pair with
    | .ok (_, ev2) => popN n ev2
    | .error _ => ev

/-- The total costs of the entries still in the selected queue, in retrieval
order. -/
def remainingCosts (ev : TrajectoryEvaluator) : List ℚ :=
  if ev.enable_auto_tuning then
    ev.cost_queue_with_components.map (fun pc => pc.2.2)
  else ev.cost_queue.map (fun pc => pc.2)

/-- The longitudinal curves of the entries in the selected queue, in retrieval
order. Every pair ever retrieved by `next_top_trajectory_pair` is an entry of
the constructed queue, so a curve absent from this list is never part of a
retrieved pair. -/
def storedLons (ev : TrajectoryEvaluator) : List Curve1d :=
  if ev.enable_auto_tuning then
    ev.cost_queue_with_components.map (fun pc => pc.1.1)
  else ev.cost_queue.map (fun pc => pc.1.1)

/-! Concrete values used by the witnesses. -/

/-- A concrete configuration with unit horizon and resolutions. -/
def cfgW : FlagsConfig where
  trajectory_time_length := 1
  trajectory_time_resolution := 1
  trajectory_space_resolution := 1
  decision_horizon := 1
  weight_lon_travel := 1
  weight_lon_jerk := 1
  weight_lon_collision := 1
  weight_lat_offset := 1
  weight_lat_comfort := 1
  weight_target_speed := 1
  weight_dist_travelled := 1
  weight_same_side_offset := 1
  weight_opposite_side_offset := 10
  lat_offset_bound := 1
  longitudinal_jerk_upper_bound := 1
  lon_collision_cost_std := 1
  lon_collision_yield_buffer := 0
  lon_collision_overtake_buffer := 0
  longitudinal_acceleration_lower_bound := -1
  comfort_acceleration_factor := 1
  lattice_epsilon := 1
  enable_auto_tuning := false

/-- A concrete configuration for the guide-velocity analysis: horizon 2,
acceleration lower bound -4, comfort factor 1, epsilon 1/1000. -/
def cfgC3 : FlagsConfig where
  trajectory_time_length := 2
  trajectory_time_resolution := 1
  trajectory_space_resolution := 1
  decision_horizon := 1
  weight_lon_travel := 1
  weight_lon_jerk := 1
  weight_lon_collision := 1
  weight_lat_offset := 1
  weight_lat_comfort := 1
  weight_target_speed := 1
  weight_dist_travelled := 1
  weight_same_side_offset := 1
  weight_opposite_side_offset := 10
  lat_offset_bound := 1
  longitudinal_jerk_upper_bound := 1
  lon_collision_cost_std := 1
  lon_collision_yield_buffer := 0
  lon_collision_overtake_buffer := 0
  longitudinal_acceleration_lower_bound := -4
  comfort_acceleration_factor := 1
  lattice_epsilon := 1 / 1000
  enable_auto_tuning := false

/-- A stand-in for `std::exp` in concrete witnesses (only its values on
arguments actually reached matter; the no-obstacle results never reach it). -/
def expW : ℚ → ℚ := fun _ => 1

/-- A longitudinal ramp: position `t`, speed 1, all higher derivatives 0. -/
def lonRampW : Curve1d :=
  ⟨fun n t => if n = 0 then t else if n = 1 then 1 else 0, 1⟩

/-- The zero curve. -/
def lonZeroW : Curve1d := ⟨fun _ _ => 0, 1⟩

/-- A lateral curve constant at offset 0. -/
def latZeroW : Curve1d := ⟨fun _ _ => 0, 1⟩

/-- A lateral curve constant at offset 1. -/
def latOneW : Curve1d := ⟨fun n _ => if n = 0 then 1 else 0, 1⟩

/-- A lateral curve with value `s` (offset 0 at `s = 0`). -/
def latLinW : Curve1d := ⟨fun n s => if n = 0 then s else 0, 1⟩

/-- A longitudinal curve moving backwards: displacement -4 over its domain. -/
def lonNegW : Curve1d := ⟨fun n t => if n = 0 then -4 * t else 0, 1⟩

/-- The concrete initial state for the guide-velocity counterexample:
`init_s = (0, 5, 0)`, so the initial longitudinal speed `init_s[1]` is 5. -/
def initC3 : InitState := ⟨0, 5, 0⟩

/-- The concrete planning target for the guide-velocity counterexample:
cruise speed 10, stop point at `s = 10`. -/
def targetC3 : PlanningTarget := ⟨10, some 10⟩

/-! Helper lemmas about the sorted queue model. -/

theorem mem_insertBy {α : Type} (key : α → ℚ) (x : α) :
    ∀ (l : List α) (a : α), a ∈ insertBy key x l ↔ a = x ∨ a ∈ l := by
  intro l
  induction l with
  | nil => intro a; simp [insertBy]
  | cons y ys ih =>
    intro a
    simp only [insertBy]
    split
    · simp [List.mem_cons]
    · simp only [List.mem_cons, ih]
      tauto

theorem pairwise_insertBy {α : Type} (key : α → ℚ) (x : α) :
    ∀ l : List α, l.Pairwise (fun a b => key a ≤ key b) →
      (insertBy key x l).Pairwise (fun a b => key a ≤ key b) := by
  intro l
  induction l with
  | nil => intro _; simp [insertBy]
  | cons y ys ih =>
    intro h
    rw [List.pairwise_cons] at h
    obtain ⟨hy, hys⟩ := h
    simp only [insertBy]
    split
    case isTrue hxy =>
      refine List.Pairwise.cons ?_ (List.Pairwise.cons hy hys)
      intro b hb
      rcases List.mem_cons.mp hb with rfl | hb
      · exact hxy
      · exact le_trans hxy (hy b hb)
    case isFalse hxy =>
      refine List.Pairwise.cons ?_ (ih hys)
      intro b hb
      rcases (mem_insertBy key x ys b).mp hb with rfl | hb
      · exact le_of_not_le hxy
      · exact hy b hb

theorem pairwise_foldl_insertBy {α β : Type} (key : α → ℚ) (g : β → α) :
    ∀ (xs : List β) (q : List α), q.Pairwise (fun a b => key a ≤ key b) →
      (xs.foldl (fun q2 x => insertBy key (g x) q2) q).Pairwise
        (fun a b => key a ≤ key b) := by
  intro xs
  induction xs with
  | nil => intro q hq; exact hq
  | cons x xs ih =>
    intro q hq
    exact ih _ (pairwise_insertBy key (g x) q hq)

theorem mem_foldl_insertBy {α β : Type} (key : α → ℚ) (g : β → α) :
    ∀ (xs : List β) (q : List α) (a : α),
      a ∈ xs.foldl (fun q2 x => insertBy key (g x) q2) q ↔
        a ∈ q ∨ ∃ x ∈ xs, a = g x := by
  intro xs
  induction xs with
  | nil => intro q a; simp
  | cons x xs ih =>
    intro q a
    simp only [List.foldl_cons]
    rw [ih, mem_insertBy]
    simp only [List.mem_cons]
    constructor
    · rintro ((rfl | hq) | ⟨x2, hx2, rfl⟩)
      · exact Or.inr ⟨x, Or.inl rfl, rfl⟩
      · exact Or.inl hq
      · exact Or.inr ⟨x2, Or.inr hx2, rfl⟩
    · rintro (hq | ⟨x2, (rfl | hx2), rfl⟩)
      · exact Or.inl (Or.inr hq)
      · exact Or.inl (Or.inl rfl)
      · exact Or.inr ⟨x2, hx2, rfl⟩

theorem pairwise_pushLoop {α : Type} (cfg : FlagsConfig)
    (planning_target : PlanningTarget) (isValidLon : Curve1d → Bool)
    (lats : List Curve1d) (mk : Curve1d → Curve1d → α) (key : α → ℚ) :
    ∀ (lons : List Curve1d) (q : List α),
      q.Pairwise (fun a b => key a ≤ key b) →
      (lons.foldl
        (fun queue lon =>
          if lonOvershootsStop cfg planning_target lon then queue
          else if isValidLon lon = false then queue
          else lats.foldl (fun q2 lat => insertBy key (mk lon lat) q2) queue)
        q).Pairwise (fun a b => key a ≤ key b) := by
  intro lons
  induction lons with
  | nil => intro q hq; exact hq
  | cons lon lons ih =>
    intro q hq
    simp only [List.foldl_cons]
    by_cases h1 : lonOvershootsStop cfg planning_target lon = true
    · rw [if_pos h1]
      exact ih q hq
    · rw [if_neg h1]
      by_cases h2 : isValidLon lon = false
      · rw [if_pos h2]
        exact ih q hq
      · rw [if_neg h2]
        exact ih _ (pairwise_foldl_insertBy key (fun lat => mk lon lat) lats q hq)

theorem pairwise_pushAdmissiblePairs {α : Type} (cfg : FlagsConfig)
    (planning_target : PlanningTarget) (isValidLon : Curve1d → Bool)
    (lons lats : List Curve1d) (mk : Curve1d → Curve1d → α) (key : α → ℚ) :
    (pushAdmissiblePairs cfg planning_target isValidLon lons lats mk
      key).Pairwise (fun a b => key a ≤ key b) := by
  unfold pushAdmissiblePairs
  exact pairwise_pushLoop cfg planning_target isValidLon lats mk key lons []
    List.Pairwise.nil

theorem mem_pushLoop {α : Type} (cfg : FlagsConfig)
    (planning_target : PlanningTarget) (isValidLon : Curve1d → Bool)
    (lats : List Curve1d) (mk : Curve1d → Curve1d → α) (key : α → ℚ) :
    ∀ (lons : List Curve1d) (q : List α) (a : α),
      a ∈ lons.foldl
        (fun queue lon =>
          if lonOvershootsStop cfg planning_target lon then queue
          else if isValidLon lon = false then queue
          else lats.foldl (fun q2 lat => insertBy key (mk lon lat) q2) queue)
        q →
      a ∈ q ∨ ∃ lon ∈ lons, ∃ lat ∈ lats, a = mk lon lat ∧
        lonOvershootsStop cfg planning_target lon = false ∧
        isValidLon lon = true := by
  intro lons
  induction lons with
  | nil => intro q a ha; exact Or.inl ha
  | cons lon lons ih =>
    intro q a ha
    simp only [List.foldl_cons] at ha
    by_cases h1 : lonOvershootsStop cfg planning_target lon = true
    · rw [if_pos h1] at ha
      rcases ih q a ha with h | ⟨lon2, hl2, rest⟩
      · exact Or.inl h
      · exact Or.inr ⟨lon2, List.mem_cons_of_mem _ hl2, rest⟩
    · rw [if_neg h1] at ha
      by_cases h2 : isValidLon lon = false
      · rw [if_pos h2] at ha
        rcases ih q a ha with h | ⟨lon2, hl2, rest⟩
        · exact Or.inl h
        · exact Or.inr ⟨lon2, List.mem_cons_of_mem _ hl2, rest⟩
      · rw [if_neg h2] at ha
        rcases ih _ a ha with h | ⟨lon2, hl2, rest⟩
        · rcases (mem_foldl_insertBy key (fun lat => mk lon lat) lats q a).mp h
            with h | ⟨lat, hlat, rfl⟩
          · exact Or.inl h
          · refine Or.inr ⟨lon, List.mem_cons_self _ _, lat, hlat, rfl, ?_, ?_⟩
            · simpa using h1
            · simpa using h2
        · exact Or.inr ⟨lon2, List.mem_cons_of_mem _ hl2, rest⟩

theorem mem_pushAdmissiblePairs {α : Type} (cfg : FlagsConfig)
    (planning_target : PlanningTarget) (isValidLon : Curve1d → Bool)
    (lons lats : List Curve1d) (mk : Curve1d → Curve1d → α) (key : α → ℚ)
    (a : α)
    (ha : a ∈ pushAdmissiblePairs cfg planning_target isValidLon lons lats
      mk key) :
    ∃ lon ∈ lons, ∃ lat ∈ lats, a = mk lon lat ∧
      lonOvershootsStop cfg planning_target lon = false ∧
      isValidLon lon = true := by
  unfold pushAdmissiblePairs at ha
  rcases mem_pushLoop cfg planning_target isValidLon lats mk key lons [] a ha
    with h | h
  · cases h
  · exact h

theorem remainingCosts_mk_pairwise (cfg : FlagsConfig) (expFn : ℚ → ℚ)
    (init_s : InitState) (planning_target : PlanningTarget)
    (lons lats : List Curve1d) (isValidLon : Curve1d → Bool)
    (intervals : List (List (ℚ × ℚ))) :
    (remainingCosts (mkTrajectoryEvaluator cfg expFn init_s planning_target
      lons lats isValidLon intervals)).Pairwise (· ≤ ·) := by
  unfold mkTrajectoryEvaluator
  by_cases hauto : cfg.enable_auto_tuning = true
  · rw [if_pos hauto]
    simp only [remainingCosts, if_pos]
    rw [List.pairwise_map]
    exact pairwise_pushAdmissiblePairs cfg planning_target isValidLon lons
      lats _ _
  · rw [if_neg hauto]
    simp only [remainingCosts, Bool.false_eq_true, if_false]
    rw [List.pairwise_map]
    exact pairwise_pushAdmissiblePairs cfg planning_target isValidLon lons
      lats _ _

theorem remainingCosts_popN (n : ℕ) :
    ∀ ev : TrajectoryEvaluator,
      remainingCosts (popN n ev) = (remainingCosts ev).drop n := by
  induction n with
  | zero => intro ev; simp [popN]
  | succ n ih =>
    intro ev
    cases hauto : ev.enable_auto_tuning
    · cases hq : ev.cost_queue with
      | nil =>
        have hstep : ev.next_top_trajectory_pair = .error .assertFail := by
          unfold TrajectoryEvaluator.next_top_trajectory_pair
            TrajectoryEvaluator.has_more_trajectory_pairs
          simp [hauto, hq]
        have hrem : remainingCosts ev = [] := by
          simp [remainingCosts, hauto, hq]
        rw [popN, hstep]
        simp [hrem]
      | cons top rest =>
        have hstep : ev.next_top_trajectory_pair =
            .ok (top.1, { ev with cost_queue := rest }) := by
          unfold TrajectoryEvaluator.next_top_trajectory_pair
            TrajectoryEvaluator.has_more_trajectory_pairs
          simp [hauto, hq]
        rw [popN, hstep]
        show remainingCosts (popN n { ev with cost_queue := rest }) = _
        rw [ih]
        simp [remainingCosts, hauto, hq]
    · cases hq : ev.cost_queue_with_components with
      | nil =>
        have hstep : ev.next_top_trajectory_pair = .error .assertFail := by
          unfold TrajectoryEvaluator.next_top_trajectory_pair
            TrajectoryEvaluator.has_more_trajectory_pairs
          simp [hauto, hq]
        have hrem : remainingCosts ev = [] := by
          simp [remainingCosts, hauto, hq]
        rw [popN, hstep]
        simp [hrem]
      | cons top rest =>
        have hstep : ev.next_top_trajectory_pair =
            .ok (top.1, { ev with cost_queue_with_components := rest }) := by
          unfold TrajectoryEvaluator.next_top_trajectory_pair
            TrajectoryEvaluator.has_more_trajectory_pairs
          simp [hauto, hq]
        rw [popN, hstep]
        show remainingCosts
          (popN n { ev with cost_queue_with_components := rest }) = _
        rw [ih]
        simp [remainingCosts, hauto, hq]

theorem storedLons_admissible (cfg : FlagsConfig) (expFn : ℚ → ℚ)
    (init_s : InitState) (planning_target : PlanningTarget)
    (lons lats : List Curve1d) (isValidLon : Curve1d → Bool)
    (intervals : List (List (ℚ × ℚ))) (c : Curve1d)
    (hc : c ∈ storedLons (mkTrajectoryEvaluator cfg expFn init_s
      planning_target lons lats isValidLon intervals)) :
    lonOvershootsStop cfg planning_target c = false ∧ isValidLon c = true := by
  unfold mkTrajectoryEvaluator at hc
  by_cases hauto : cfg.enable_auto_tuning = true
  · rw [if_pos hauto] at hc
    simp only [storedLons, if_pos] at hc
    rcases List.mem_map.mp hc with ⟨pc, hpc, rfl⟩
    rcases mem_pushAdmissiblePairs _ _ _ _ _ _ _ _ hpc
      with ⟨lon, _, lat, _, rfl, hov, hval⟩
    exact ⟨hov, hval⟩
  · rw [if_neg hauto] at hc
    simp only [storedLons, Bool.false_eq_true, if_false] at hc
    rcases List.mem_map.mp hc with ⟨pc, hpc, rfl⟩
    rcases mem_pushAdmissiblePairs _ _ _ _ _ _ _ _ hpc
      with ⟨lon, _, lat, _, rfl, hov, hval⟩
    exact ⟨hov, hval⟩

/-! Helper lemmas about the guide-velocity profile. -/

theorem appendSegment_start_v (p : ConstAccProfile) (a t : ℚ) :
    (p.appendSegment a t).start_v = p.start_v := rfl

theorem guideProfile_start_v (cfg : FlagsConfig) (init_s : InitState)
    (planning_target : PlanningTarget) :
    (guideProfile cfg init_s planning_target).start_v =
      planning_target.cruise_speed := by
  unfold guideProfile
  cases hsp : planning_target.stop_point with
  | none => rfl
  | some stop_s =>
    dsimp only
    repeat' split
    all_goals rfl

theorem head_sampleTimes (length resolution : ℚ) (hL : 0 < length)
    (hdt : 0 < resolution) : (sampleTimes length resolution).head? = some 0 := by
  unfold sampleTimes
  have hpos : 0 < ⌈length / resolution⌉₊ :=
    Nat.ceil_pos.mpr (div_pos hL hdt)
  obtain ⟨m, hm⟩ := Nat.exists_eq_succ_of_ne_zero (Nat.pos_iff_ne_zero.mp hpos)
  rw [hm, List.range_succ_eq_map]
  simp

theorem evalSpeedAux_zero (v : ℚ) (segs : List (ℚ × ℚ))
    (h : ∀ sg ∈ segs, 0 ≤ sg.2) : evalSpeedAux v segs 0 = v := by
  cases segs with
  | nil => rfl
  | cons sg rest =>
    obtain ⟨a, d⟩ := sg
    have hd : (0 : ℚ) ≤ d := h (a, d) (List.mem_cons_self _ _)
    simp [evalSpeedAux, hd]

theorem guideVelocity_head (cfg : FlagsConfig) (init_s : InitState)
    (planning_target : PlanningTarget)
    (hT : 0 < cfg.trajectory_time_length)
    (hdt : 0 < cfg.trajectory_time_resolution)
    (hseg : ∀ sg ∈ (guideProfile cfg init_s planning_target).segments,
      0 ≤ sg.2) :
    (ComputeLongitudinalGuideVelocity cfg init_s planning_target).head? =
      some planning_target.cruise_speed := by
  unfold ComputeLongitudinalGuideVelocity
  rw [List.head?_map, head_sampleTimes _ _ hT hdt]
  simp only [Option.map_some']
  rw [ConstAccProfile.evalSpeed, evalSpeedAux_zero _ _ hseg,
    guideProfile_start_v]

theorem lonCollisionSums_all_empty (cfg : FlagsConfig) (expFn : ℚ → ℚ)
    (lon : Curve1d) (i : ℕ) (intervals : List (List (ℚ × ℚ))) (acc : ℚ × ℚ)
    (h : ∀ sl ∈ intervals, sl = []) :
    lonCollisionSums cfg expFn lon i intervals acc = acc := by
  induction intervals generalizing i acc with
  | nil => rfl
  | cons sl rest ih =>
    have hsl : sl = [] := h sl (List.mem_cons_self _ _)
    subst hsl
    rw [lonCollisionSums]
    simp only [List.isEmpty_nil, if_true]
    exact ih (i + 1) acc fun sl2 hsl2 => h sl2 (List.mem_cons_of_mem _ hsl2)

/-- Claim C1: after construction, every call to `next_top_trajectory_pair`
returns the pair whose stored total cost is the minimum among the pairs still
in the store (the head cost of the remaining queue is at most every remaining
cost), and the costs of successively returned pairs are non-decreasing until
the store is empty (the head cost after one more pop is at least the current
head cost). -/
theorem take_best_min_and_monotone
    (cfg : FlagsConfig) (expFn : ℚ → ℚ) (init_s : InitState)
    (planning_target : PlanningTarget) (lons lats : List Curve1d)
    (isValidLon : Curve1d → Bool) (intervals : List (List (ℚ × ℚ)))
    (n : ℕ) (c : ℚ)
    (hc : (remainingCosts (popN n (mkTrajectoryEvaluator cfg expFn init_s
      planning_target lons lats isValidLon intervals))).head? = some c) :
    (∀ c2 ∈ remainingCosts (popN n (mkTrajectoryEvaluator cfg expFn init_s
        planning_target lons lats isValidLon intervals)), c ≤ c2) ∧
    ∀ c2, (remainingCosts (popN (n + 1) (mkTrajectoryEvaluator cfg expFn
        init_s planning_target lons lats isValidLon intervals))).head? =
        some c2 → c ≤ c2 := by
  set ev := mkTrajectoryEvaluator cfg expFn init_s planning_target lons lats
    isValidLon intervals with hev
  have hsorted : (remainingCosts ev).Pairwise (· ≤ ·) := by
    rw [hev]
    exact remainingCosts_mk_pairwise cfg expFn init_s planning_target lons
      lats isValidLon intervals
  rw [remainingCosts_popN] at hc
  have hpw : ((remainingCosts ev).drop n).Pairwise (· ≤ ·) :=
    hsorted.sublist (List.drop_sublist n _)
  cases hdn : (remainingCosts ev).drop n with
  | nil => rw [hdn] at hc; cases hc
  | cons a tl =>
    rw [hdn] at hc
    have hac : a = c := by simpa using hc
    rw [hdn, List.pairwise_cons] at hpw
    obtain ⟨ha, _⟩ := hpw
    have hd1 : (remainingCosts ev).drop (n + 1) = tl := by
      rw [← List.tail_drop, hdn]
      rfl
    subst hac
    constructor
    · intro c2 hc2
      rw [remainingCosts_popN, hdn] at hc2
      rcases List.mem_cons.mp hc2 with h | h
      · exact le_of_eq h.symm
      · exact ha c2 h
    · intro c2 hc2
      rw [remainingCosts_popN, hd1] at hc2
      cases tl with
      | nil => cases hc2
      | cons b tl2 =>
        have hb : b = c2 := by simpa using hc2
        exact hb ▸ ha b (List.mem_cons_self _ _)

/-- Witness for C1: a concrete evaluator holding two pairs with costs
`1/4` and `3/4`; the first retrieval has the minimum cost `1/4` and the next
retrieval's cost is no smaller. -/
theorem take_best_min_and_monotone_witness :
    (remainingCosts (popN 0 (mkTrajectoryEvaluator cfgW expW ⟨0, 0, 0⟩
      ⟨1, none⟩ [lonRampW] [latZeroW, latOneW] (fun _ => true) []))).head? =
      some (1 / 4) ∧
    (∀ c2 ∈ remainingCosts (popN 0 (mkTrajectoryEvaluator cfgW expW ⟨0, 0, 0⟩
        ⟨1, none⟩ [lonRampW] [latZeroW, latOneW] (fun _ => true) [])),
      (1 : ℚ) / 4 ≤ c2) ∧
    ∀ c2, (remainingCosts (popN (0 + 1) (mkTrajectoryEvaluator cfgW expW
        ⟨0, 0, 0⟩ ⟨1, none⟩ [lonRampW] [latZeroW, latOneW] (fun _ => true)
        []))).head? = some c2 → (1 : ℚ) / 4 ≤ c2 := by
  have h : (remainingCosts (popN 0 (mkTrajectoryEvaluator cfgW expW ⟨0, 0, 0⟩
      ⟨1, none⟩ [lonRampW] [latZeroW, latOneW] (fun _ => true) []))).head? =
      some (1 / 4) := by with_unfolding_all rfl
  exact ⟨h, take_best_min_and_monotone cfgW expW ⟨0, 0, 0⟩ ⟨1, none⟩
    [lonRampW] [latZeroW, latOneW] (fun _ => true) [] 0 (1 / 4) h⟩

/-- Claim C2: a longitudinal candidate that overshoots the stop point (its
end-of-horizon position strictly exceeds the target's stop position), or that
fails the external longitudinal-feasibility predicate, contributes no pairs:
it is not the longitudinal component of any entry of the constructed store,
hence never appears in any retrieved pair. -/
theorem overshooting_lon_never_stored
    (cfg : FlagsConfig) (expFn : ℚ → ℚ) (init_s : InitState)
    (planning_target : PlanningTarget) (lons lats : List Curve1d)
    (isValidLon : Curve1d → Bool) (intervals : List (List (ℚ × ℚ)))
    (lon : Curve1d)
    (h : lonOvershootsStop cfg planning_target lon = true ∨
      isValidLon lon = false) :
    lon ∉ storedLons (mkTrajectoryEvaluator cfg expFn init_s planning_target
      lons lats isValidLon intervals) := by
  intro hmem
  rcases storedLons_admissible cfg expFn init_s planning_target lons lats
    isValidLon intervals lon hmem with ⟨h1, h2⟩
  rcases h with h | h
  · rw [h] at h1; cases h1
  · rw [h] at h2; cases h2

/-- Witness for C2: with a stop point at `s = 0`, the ramp candidate ends at
position `1 > 0` and is excluded, while another candidate survives (the store
is nonempty), so the exclusion is not vacuous. -/
theorem overshooting_lon_never_stored_witness :
    lonRampW ∉ storedLons (mkTrajectoryEvaluator cfgW expW ⟨0, 0, 0⟩
      ⟨1, some 0⟩ [lonRampW, lonZeroW] [latZeroW] (fun _ => true) []) :=
  overshooting_lon_never_stored cfgW expW ⟨0, 0, 0⟩ ⟨1, some 0⟩
    [lonRampW, lonZeroW] [latZeroW] (fun _ => true) [] lonRampW
    (Or.inl (by with_unfolding_all rfl))

/-- Claim C3 counterexample: with `init_s = (0, 5, 0)` (initial speed
`init_s[1] = 5`), cruise speed 10 and a stop point at `s = 10` (single
deceleration-segment stop mode: `stop_a = -5 ≤ comfort_a = -4`), the first
sampled reference speed of the guide-velocity profile is 10, the cruise
speed — not the initial speed 5. The profile starts at the cruise speed, so
the claim as stated is false. -/
theorem guide_velocity_first_speed_not_init :
    (ComputeLongitudinalGuideVelocity cfgC3 initC3 targetC3).head? ≠
      some initC3.ds := by
  with_unfolding_all decide

/-- Claim C3 amended: the guide-velocity profile starts at the target's
cruise speed `cruise_speed` (not at the initial longitudinal speed
`init_s[1]`): the constructed profile's initial speed is `cruise_speed`, and
(for positive horizon and resolution, with nonnegative segment durations) the
first sampled reference speed equals `cruise_speed`; in stop mode the
deceleration starts from the cruise speed. -/
theorem guide_velocity_starts_at_cruise_speed (cfg : FlagsConfig)
    (init_s : InitState) (planning_target : PlanningTarget)
    (hT : 0 < cfg.trajectory_time_length)
    (hdt : 0 < cfg.trajectory_time_resolution)
    (hseg : ∀ sg ∈ (guideProfile cfg init_s planning_target).segments,
      0 ≤ sg.2) :
    (guideProfile cfg init_s planning_target).start_v =
      planning_target.cruise_speed ∧
    (ComputeLongitudinalGuideVelocity cfg init_s planning_target).head? =
      some planning_target.cruise_speed :=
  ⟨guideProfile_start_v cfg init_s planning_target,
   guideVelocity_head cfg init_s planning_target hT hdt hseg⟩

/-- Witness for the amended C3: the concrete stop-mode instance used in the
counterexample satisfies the hypotheses, and its first sampled reference
speed is the cruise speed 10. -/
theorem guide_velocity_starts_at_cruise_speed_witness :
    (0 : ℚ) < cfgC3.trajectory_time_length ∧
    (0 : ℚ) < cfgC3.trajectory_time_resolution ∧
    (guideProfile cfgC3 initC3 targetC3).start_v = targetC3.cruise_speed ∧
    (ComputeLongitudinalGuideVelocity cfgC3 initC3 targetC3).head? =
      some targetC3.cruise_speed := by
  refine ⟨by with_unfolding_all decide, by with_unfolding_all decide, ?_⟩
  exact guide_velocity_starts_at_cruise_speed cfgC3 initC3 targetC3
    (by with_unfolding_all decide) (by with_unfolding_all decide)
    (by with_unfolding_all decide)

/-- Claim C4: with no stop point and cruise speed `v`, every sampled
reference speed produced by `ComputeLongitudinalGuideVelocity` equals `v`
(a single zero-acceleration segment spanning the full horizon). -/
theorem cruise_guide_velocity_constant (cfg : FlagsConfig)
    (init_s : InitState) (v r : ℚ)
    (hr : r ∈ ComputeLongitudinalGuideVelocity cfg init_s ⟨v, none⟩) :
    r = v := by
  unfold ComputeLongitudinalGuideVelocity at hr
  rcases List.mem_map.mp hr with ⟨t, _, rfl⟩
  show (guideProfile cfg init_s ⟨v, none⟩).evalSpeed t = v
  have hprof : guideProfile cfg init_s ⟨v, none⟩ =
      ⟨init_s.s, v, [(0, cfg.trajectory_time_length)]⟩ := rfl
  rw [hprof, ConstAccProfile.evalSpeed]
  show evalSpeedAux v [(0, cfg.trajectory_time_length)] t = v
  rw [evalSpeedAux]
  split
  · ring
  · show evalSpeedAux (v + 0 * cfg.trajectory_time_length) [] _ = v
    rw [evalSpeedAux]
    ring

/-- Witness for C4: with cruise speed 10 and no stop point, 10 is a sampled
reference speed and the theorem applies to it. -/
theorem cruise_guide_velocity_constant_witness :
    (10 : ℚ) ∈ ComputeLongitudinalGuideVelocity cfgW ⟨0, 0, 0⟩ ⟨10, none⟩ ∧
    (10 : ℚ) = 10 :=
  ⟨by with_unfolding_all decide,
   cruise_guide_velocity_constant cfgW ⟨0, 0, 0⟩ 10 10
     (by with_unfolding_all decide)⟩

/-- Claim C5: when every time slice of the blocking-interval table is empty
over the whole horizon (and the configured epsilon is positive, as in the
deployed flags), `LonCollisionCost` is 0 for every longitudinal candidate. -/
theorem lon_collision_cost_zero_no_obstacles (cfg : FlagsConfig)
    (expFn : ℚ → ℚ) (intervals : List (List (ℚ × ℚ))) (lon : Curve1d)
    (hemp : ∀ sl ∈ intervals, sl = [])
    (heps : 0 < cfg.lattice_epsilon) :
    LonCollisionCost cfg expFn intervals lon = 0 := by
  unfold LonCollisionCost
  rw [lonCollisionSums_all_empty cfg expFn lon 0 intervals (0, 0) hemp]
  exact zero_div _

/-- Witness for C5: a concrete two-slice table with both slices empty gives
collision cost 0. -/
theorem lon_collision_cost_zero_no_obstacles_witness :
    (∀ sl ∈ [([] : List (ℚ × ℚ)), []], sl = []) ∧
    (0 : ℚ) < cfgW.lattice_epsilon ∧
    LonCollisionCost cfgW expW [[], []] lonZeroW = 0 :=
  ⟨by with_unfolding_all decide, by with_unfolding_all decide,
   lon_collision_cost_zero_no_obstacles cfgW expW [[], []] lonZeroW
     (by with_unfolding_all decide) (by with_unfolding_all decide)⟩

/-- Claim C6: for every evaluated pair, the reported component vector has
exactly four entries, in order: objective-tracking cost, longitudinal comfort
(jerk) cost, longitudinal collision cost, lateral offset cost — lateral
comfort is not among them — while the returned total is the weighted sum of
all five terms with the five configured weights. -/
theorem evaluate_components_and_total (cfg : FlagsConfig) (expFn : ℚ → ℚ)
    (intervals : List (List (ℚ × ℚ))) (init_s : InitState)
    (planning_target : PlanningTarget) (lon lat : Curve1d) :
    (Evaluate cfg expFn intervals init_s planning_target lon lat).2 =
      [LonObjectiveCost cfg lon planning_target
        (ComputeLongitudinalGuideVelocity cfg init_s planning_target),
       LonComfortCost cfg lon,
       LonCollisionCost cfg expFn intervals lon,
       LatOffsetCost cfg lat (sValues cfg lon)] ∧
    (Evaluate cfg expFn intervals init_s planning_target lon lat).2.length =
      4 ∧
    (Evaluate cfg expFn intervals init_s planning_target lon lat).1 =
      LonObjectiveCost cfg lon planning_target
          (ComputeLongitudinalGuideVelocity cfg init_s planning_target) *
          cfg.weight_lon_travel +
        LonComfortCost cfg lon * cfg.weight_lon_jerk +
        LonCollisionCost cfg expFn intervals lon * cfg.weight_lon_collision +
        LatOffsetCost cfg lat (sValues cfg lon) * cfg.weight_lat_offset +
        LatComfortCost cfg lon lat * cfg.weight_lat_comfort :=
  ⟨rfl, rfl, rfl⟩

/-- Claim C7: `next_top_trajectory_pair` hits its fatal
`CHECK(has_more_trajectory_pairs() == true)` exactly when no pair remains
(and that check is the only abnormal outcome the call can produce), and
`top_trajectory_pair_component_cost` hits its fatal
`CHECK(FLAGS_enable_auto_tuning)` exactly when component-tracking mode is
inactive. Neither returns a recoverable error. -/
theorem retrieval_checks_fail_fast (ev : TrajectoryEvaluator) :
    (ev.next_top_trajectory_pair = .error .assertFail ↔
      ev.has_more_trajectory_pairs = false) ∧
    (∀ e, ev.next_top_trajectory_pair = .error e → e = .assertFail) ∧
    (ev.top_trajectory_pair_component_cost = .error .assertFail ↔
      ev.enable_auto_tuning = false) := by
  refine ⟨?_, ?_, ?_⟩
  · cases hmore : ev.has_more_trajectory_pairs
    · unfold TrajectoryEvaluator.next_top_trajectory_pair
      simp [hmore]
    · unfold TrajectoryEvaluator.next_top_trajectory_pair
      cases hauto : ev.enable_auto_tuning
      · cases hq : ev.cost_queue with
        | nil =>
          exfalso
          rw [TrajectoryEvaluator.has_more_trajectory_pairs, hauto] at hmore
          simp [hq] at hmore
        | cons top rest => simp [hmore, hauto, hq]
      · cases hq : ev.cost_queue_with_components with
        | nil =>
          exfalso
          rw [TrajectoryEvaluator.has_more_trajectory_pairs, hauto] at hmore
          simp [hq] at hmore
        | cons top rest => simp [hmore, hauto, hq]
  · intro e he
    cases hmore : ev.has_more_trajectory_pairs
    · rw [TrajectoryEvaluator.next_top_trajectory_pair] at he
      simp [hmore] at he
      exact he.symm
    · exfalso
      rw [TrajectoryEvaluator.next_top_trajectory_pair] at he
      cases hauto : ev.enable_auto_tuning
      · cases hq : ev.cost_queue with
        | nil =>
          rw [TrajectoryEvaluator.has_more_trajectory_pairs, hauto] at hmore
          simp [hq] at hmore
        | cons top rest => simp [hmore, hauto, hq] at he
      · cases hq : ev.cost_queue_with_components with
        | nil =>
          rw [TrajectoryEvaluator.has_more_trajectory_pairs, hauto] at hmore
          simp [hq] at hmore
        | cons top rest => simp [hmore, hauto, hq] at he
  · cases hauto : ev.enable_auto_tuning
    · unfold TrajectoryEvaluator.top_trajectory_pair_component_cost
      simp [hauto]
    · unfold TrajectoryEvaluator.top_trajectory_pair_component_cost
      cases hq : ev.cost_queue_with_components with
      | nil => simp [hauto, hq]
      | cons top rest => simp [hauto, hq]

/-- Claim C9: the peek accessor `top_trajectory_pair_cost` performs no
precondition check at all: it reads the top of the selected queue directly,
and that read is of an empty queue exactly when no pair remains; the only
abnormal outcome it can produce is the unchecked empty-queue read (never an
assertion), so its error branch is unreachable only under the unstated,
unasserted precondition that at least one pair remains. -/
theorem peek_cost_unchecked_empty_read (ev : TrajectoryEvaluator) :
    (ev.top_trajectory_pair_cost = .error .emptyQueueRead ↔
      ev.has_more_trajectory_pairs = false) ∧
    (∀ e, ev.top_trajectory_pair_cost = .error e → e = .emptyQueueRead) := by
  constructor
  · cases hauto : ev.enable_auto_tuning
    · cases hq : ev.cost_queue with
      | nil =>
        unfold TrajectoryEvaluator.top_trajectory_pair_cost
          TrajectoryEvaluator.has_more_trajectory_pairs
        simp [hauto, hq]
      | cons top rest =>
        unfold TrajectoryEvaluator.top_trajectory_pair_cost
          TrajectoryEvaluator.has_more_trajectory_pairs
        simp [hauto, hq]
    · cases hq : ev.cost_queue_with_components with
      | nil =>
        unfold TrajectoryEvaluator.top_trajectory_pair_cost
          TrajectoryEvaluator.has_more_trajectory_pairs
        simp [hauto, hq]
      | cons top rest =>
        unfold TrajectoryEvaluator.top_trajectory_pair_cost
          TrajectoryEvaluator.has_more_trajectory_pairs
        simp [hauto, hq]
  · intro e he
    rw [TrajectoryEvaluator.top_trajectory_pair_cost] at he
    cases hauto : ev.enable_auto_tuning
    · cases hq : ev.cost_queue with
      | nil =>
        simp [hauto, hq] at he
        exact he.symm
      | cons top rest => simp [hauto, hq] at he
    · cases hq : ev.cost_queue_with_components with
      | nil =>
        simp [hauto, hq] at he
        exact he.symm
      | cons top rest => simp [hauto, hq] at he

/-- Claim C8 counterexample: the distance term `1 / (1 + Δs)` is negative for
a candidate whose displacement over its own domain is `Δs = -4` (a curve
moving backwards), so "this term is never negative" is false as stated for
arbitrary candidates. -/
theorem dist_travelled_cost_negative_counterexample :
    distTravelledCost lonNegW < 0 := by
  with_unfolding_all decide

/-- Claim C8 amended: the distance term of `LonObjectiveCost` equals
`1 / (1 + Δs)` where `Δs` is the candidate's displacement over its own
parameter domain; for every candidate with nonnegative displacement the term
is positive (hence never negative), at most 1, and falls below any `eps > 0`
once `Δs` exceeds `1 / eps` (it approaches 0 as the distance covered
grows). -/
theorem dist_travelled_cost_amended (lon : Curve1d)
    (h : 0 ≤ distTravelled lon) :
    distTravelledCost lon = 1 / (1 + distTravelled lon) ∧
    0 < distTravelledCost lon ∧
    distTravelledCost lon ≤ 1 ∧
    ∀ eps : ℚ, 0 < eps → 1 / eps < distTravelled lon →
      distTravelledCost lon < eps := by
  have h1 : (0 : ℚ) < 1 + distTravelled lon := by linarith
  refine ⟨rfl, ?_, ?_, ?_⟩
  · show (0 : ℚ) < 1 / (1 + distTravelled lon)
    exact div_pos one_pos h1
  · show (1 : ℚ) / (1 + distTravelled lon) ≤ 1
    rw [div_le_one h1]
    linarith
  · intro eps heps hlt
    show (1 : ℚ) / (1 + distTravelled lon) < eps
    rw [div_lt_iff₀ h1]
    have h3 : eps * (1 / eps) = 1 := mul_one_div_cancel (ne_of_gt heps)
    nlinarith [mul_lt_mul_of_pos_left hlt heps]

/-- Witness for the amended C8: the zero curve has displacement 0, and its
distance term is `1 / (1 + 0)`, positive and at most 1. -/
theorem dist_travelled_cost_amended_witness :
    (0 : ℚ) ≤ distTravelled lonZeroW ∧
    (distTravelledCost lonZeroW = 1 / (1 + distTravelled lonZeroW) ∧
     0 < distTravelledCost lonZeroW ∧
     distTravelledCost lonZeroW ≤ 1 ∧
     ∀ eps : ℚ, 0 < eps → 1 / eps < distTravelled lonZeroW →
       distTravelledCost lonZeroW < eps) :=
  ⟨by with_unfolding_all decide,
   dist_travelled_cost_amended lonZeroW (by with_unfolding_all decide)⟩

/-- Claim C10: in `LatOffsetCost` a sample is weighted with the opposite-side
weight only when `lat_offset * lat_offset_start < 0` strictly; hence for a
lateral candidate whose offset at `s = 0` is exactly zero the product is zero
for every sample, and every sample is weighted with the same-side weight
regardless of its sign. -/
theorem lat_offset_zero_start_same_side (cfg : FlagsConfig) (lat : Curve1d)
    (s_values : List ℚ) (h : lat.eval 0 0 = 0) :
    LatOffsetCost cfg lat s_values =
      LatOffsetCostSameSideOnly cfg lat s_values := by
  simp only [LatOffsetCost, LatOffsetCostSameSideOnly, h, mul_zero,
    lt_self_iff_false, if_false]

/-- Witness for C10: the linear lateral curve has offset 0 at `s = 0`, and
over samples `[0, 1, 2]` its `LatOffsetCost` equals the all-same-side-weight
accumulation. -/
theorem lat_offset_zero_start_same_side_witness :
    latLinW.eval 0 0 = 0 ∧
    LatOffsetCost cfgW latLinW [0, 1, 2] =
      LatOffsetCostSameSideOnly cfgW latLinW [0, 1, 2] :=
  ⟨by with_unfolding_all rfl,
   lat_offset_zero_start_same_side cfgW latLinW [0, 1, 2]
     (by with_unfolding_all rfl)⟩
